import Mathlib

/-!
Shallow embedding of the HTPC App Manager core (src/src/main.rs).

The core state machine is `HtpcApp` (selection over a fixed 2×3 grid of
configured app entries, gamepad frame-debounce memory, and a 0.25 s launch
animation).  Per-frame behaviour is `HtpcApp.update` (the body of
`eframe::App::update`), with the gamepad debounce factored out in
`HtpcApp.gamepad_actions` exactly as in the source.

Modelling conventions:
* `std::time::Instant` timestamps are rational numbers of seconds; the elapsed
  time of the animation is `now - start`.
* The gamepad backend (gilrs) is external I/O; the five raw per-tick booleans
  produced by its event queue OR-ed with its polling state (main.rs lines
  79-107) are taken as the tick's input snapshot `GamepadButtons`.
* Keyboard edge events from the host are the input snapshot `KeySnapshot`
  (one boolean per `key_pressed` query, plus the close key `C`).
* The launch side effect (`HtpcApp::launch`, which spawns the tilde-expanded
  command when `apps.get(idx)` is `Some`) is recorded as the list of indices
  launched during the tick instead of spawning a process.
* The egui rendering pass only reads state, with one exception: the flash
  animation block (main.rs lines 279-301) clears `animation_idx` and
  `animation_start` once the 0.25 s duration has elapsed.  That per-tile
  mutation is `HtpcApp.render_expire`, and the alpha it computes for the
  flash overlay is the renderer-visible `HtpcApp.animation_progress`.
  Both run only for a tile that is actually drawn with an entry, i.e. an
  index below `GRID_ROWS * GRID_COLS` holding an app.
-/

/-- An entry of the JSON config (`struct AppEntry`). -/
structure AppEntry where
  name : String
  run : String
  icon : String
deriving DecidableEq

/-- `const GRID_ROWS: usize = 2`. -/
def GRID_ROWS : Nat := 2

/-- `const GRID_COLS: usize = 3`. -/
def GRID_COLS : Nat := 3

/-- The core state (`struct HtpcApp`).  The `bg_texture` cache and the `gilrs`
backend handle are external I/O resources and carry no core logic, so they are
not part of the model. -/
structure HtpcApp where
  apps : List AppEntry
  selected : Nat
  animation_start : Option ℚ
  animation_idx : Option Nat
  last_any_pressed : Bool
deriving DecidableEq

/-- The five raw gamepad booleans for one tick (event queue OR polling state,
main.rs lines 70-107). -/
structure GamepadButtons where
  left : Bool
  right : Bool
  up : Bool
  down : Bool
  activate : Bool
deriving DecidableEq

/-- All five gamepad booleans false. -/
def gpNone : GamepadButtons := ⟨false, false, false, false, false⟩

/-- The keyboard edge-event snapshot for one tick (main.rs lines 137-144). -/
structure KeySnapshot where
  key_right : Bool
  key_left : Bool
  key_down : Bool
  key_up : Bool
  key_enter : Bool
  key_c : Bool
deriving DecidableEq

/-- No key pressed this tick. -/
def kNone : KeySnapshot := ⟨false, false, false, false, false, false⟩

/-- Only `ArrowRight` pressed. -/
def kRight : KeySnapshot := { kNone with key_right := true }

/-- Only `ArrowLeft` pressed. -/
def kLeft : KeySnapshot := { kNone with key_left := true }

/-- Only `ArrowDown` pressed. -/
def kDown : KeySnapshot := { kNone with key_down := true }

/-- Only `ArrowUp` pressed. -/
def kUp : KeySnapshot := { kNone with key_up := true }

/-- Only `Enter` pressed. -/
def kEnter : KeySnapshot := { kNone with key_enter := true }

/-- `ArrowRight` and `Enter` pressed in the same tick. -/
def kRightEnter : KeySnapshot := { kNone with key_right := true, key_enter := true }

/-- `any_pressed = left || right || up || down || activate` (main.rs line 110). -/
def anyPressed (b : GamepadButtons) : Bool :=
  b.left || b.right || b.up || b.down || b.activate

/-- `HtpcApp::gamepad_actions` (main.rs lines 69-120): frame debounce of the
raw gamepad booleans.  Returns the effective booleans for this tick together
with the updated state (`last_any_pressed` stored for the next tick). -/
def HtpcApp.gamepad_actions (s : HtpcApp) (raw : GamepadButtons) :
    GamepadButtons × HtpcApp :=
  let any_pressed := anyPressed raw
  let trigger := any_pressed && !s.last_any_pressed
  let s' := { s with last_any_pressed := any_pressed }
  if trigger then (raw, s') else (gpNone, s')

/-- The observable effect of `HtpcApp::launch` (main.rs lines 61-68): the
spawn happens exactly when `apps.get(idx)` is `Some`, i.e. `idx < apps.length`;
we record the launched index. -/
def HtpcApp.launchList (s : HtpcApp) (idx : Nat) : List Nat :=
  if idx < s.apps.length then [idx] else []

/-- The animation duration, `let duration = 0.25;` (main.rs line 282). -/
def duration : ℚ := 1/4

/-- Rust's `val.clamp(0.0, 1.0)`. -/
def clamp01 (x : ℚ) : ℚ := min (max x 0) 1

/-- The renderer-visible animation progress: the flash-overlay alpha of
main.rs lines 279-293.  `some (idx, alpha)` exactly when the animated tile is
drawn (its index is inside the 2×3 grid and holds an entry) and the elapsed
time is still below the duration; `none` otherwise. -/
def HtpcApp.animation_progress (s : HtpcApp) (now : ℚ) : Option (Nat × ℚ) :=
  match s.animation_idx, s.animation_start with
  | some idx, some start =>
      if idx < GRID_ROWS * GRID_COLS ∧ idx < s.apps.length then
        (if now - start < duration then
          some (idx, clamp01 (1 - (now - start) / duration))
        else none)
      else none
  | _, _ => none

/-- The state mutation of the rendering pass (main.rs lines 296-299): when the
animated tile is drawn with an entry and the elapsed time has reached the
duration, `animation_idx` and `animation_start` are cleared. -/
def HtpcApp.render_expire (s : HtpcApp) (now : ℚ) : HtpcApp :=
  match s.animation_idx, s.animation_start with
  | some idx, some start =>
      if idx < GRID_ROWS * GRID_COLS ∧ idx < s.apps.length ∧ duration ≤ now - start
      then { s with animation_idx := none, animation_start := none }
      else s
  | _, _ => s

/-- The right-move branch (main.rs lines 150-154):
`if selected + 1 < apps.len() && (selected + 1) % GRID_COLS != 0 { selected += 1 }`. -/
def step_right (len sel : Nat) : Nat :=
  if sel + 1 < len ∧ (sel + 1) % GRID_COLS ≠ 0 then sel + 1 else sel

/-- The left-move branch (main.rs lines 155-159):
`if selected % GRID_COLS != 0 { selected -= 1 }`. -/
def step_left (sel : Nat) : Nat :=
  if sel % GRID_COLS ≠ 0 then sel - 1 else sel

/-- The down-move branch (main.rs lines 160-165):
`let next = selected + GRID_COLS; if next < apps.len() { selected = next }`. -/
def step_down (len sel : Nat) : Nat :=
  if sel + GRID_COLS < len then sel + GRID_COLS else sel

/-- The up-move branch (main.rs lines 166-170):
`if selected >= GRID_COLS { selected -= GRID_COLS }`. -/
def step_up (sel : Nat) : Nat :=
  if GRID_COLS ≤ sel then sel - GRID_COLS else sel

/-- The four sequential move `if`s of `update` (main.rs lines 149-170): each
branch that fires reads the selection left by the previous one. -/
def moveStep (len sel : Nat) (r l d u : Bool) : Nat :=
  let s1 := if r then step_right len sel else sel
  let s2 := if l then step_left s1 else s1
  let s3 := if d then step_down len s2 else s2
  if u then step_up s3 else s3

/-- The outcome of one frame: the new core state, the indices launched this
frame, and whether `frame.close()` was requested. -/
structure TickResult where
  state : HtpcApp
  launched : List Nat
  closed : Bool
deriving DecidableEq

/-- One frame of `eframe::App::update` for `HtpcApp` (main.rs lines 124-357),
restricted to the core state machine.  When focused: drain/debounce the
gamepad, read the keyboard, close on `C` (early return, before any move or
launch and before the rendering pass), apply the four move branches in
sequence, then on `Enter`/South set the animation target and clock and fire
the launch.  The rendering pass then applies the animation-expiry mutation
(`render_expire`).  When unfocused the whole input block is skipped and only
the rendering pass runs. -/
def HtpcApp.update (s : HtpcApp) (focused : Bool) (k : KeySnapshot)
    (gp : GamepadButtons) (now : ℚ) : TickResult :=
  if focused then
    let p := s.gamepad_actions gp
    let g := p.1
    let s1 := p.2
    if k.key_c then
      { state := s1, launched := [], closed := true }
    else
      let sel := moveStep s1.apps.length s1.selected
        (k.key_right || g.right) (k.key_left || g.left)
        (k.key_down || g.down) (k.key_up || g.up)
      let s2 := { s1 with selected := sel }
      if k.key_enter || g.activate then
        let s3 := { s2 with animation_start := some now, animation_idx := some sel }
        { state := s3.render_expire now, launched := s3.launchList sel, closed := false }
      else
        { state := s2.render_expire now, launched := [], closed := false }
  else
    { state := s.render_expire now, launched := [], closed := false }

/-- The state built by the `Ok(Self { .. })` branch of `HtpcApp::new`
(main.rs lines 50-58). -/
def HtpcApp.fromApps (apps : List AppEntry) : HtpcApp :=
  { apps := apps
  , selected := 0
  , animation_start := none
  , animation_idx := none
  , last_any_pressed := false }

/-- `HtpcApp::new` (main.rs lines 36-59): the config load (I/O) either fails
or yields the entry list; the constructor itself performs no validation of the
loaded list and always succeeds on it. -/
def HtpcApp.new (loaded : Except String (List AppEntry)) :
    Except String HtpcApp :=
  match loaded with
  | .error e => .error e
  | .ok apps => .ok (HtpcApp.fromApps apps)

/-- The inputs of one frame, for iterating `update`. -/
structure TickInput where
  focused : Bool
  keys : KeySnapshot
  gp : GamepadButtons
  now : ℚ

/-- Iterate `update` over a list of per-frame inputs, keeping the state. -/
def runTicks (s : HtpcApp) : List TickInput → HtpcApp
  | [] => s
  | i :: rest => runTicks ((s.update i.focused i.keys i.gp i.now).state) rest

/-- Iterate `gamepad_actions` over a list of raw snapshots, collecting the
effective (post-debounce) booleans of every tick. -/
def gamepadRun (s : HtpcApp) : List GamepadButtons → List GamepadButtons
  | [] => []
  | r :: rest =>
      let p := s.gamepad_actions r
      p.1 :: gamepadRun p.2 rest

/-- A 5-entry sample config for concrete scenarios (2×3 grid, last cell empty). -/
def sampleApps : List AppEntry :=
  [⟨"a", "a.sh", "a.png"⟩, ⟨"b", "b.sh", "b.png"⟩, ⟨"c", "c.sh", "c.png"⟩,
   ⟨"d", "d.sh", "d.png"⟩, ⟨"e", "e.sh", "e.png"⟩]

/-- The sample state at a given selection. -/
def sampleAt (i : Nat) : HtpcApp := { HtpcApp.fromApps sampleApps with selected := i }

/-- A raw gamepad snapshot with only the South (activate) button held. -/
def gpSouth : GamepadButtons := ⟨false, false, false, false, true⟩

/-- Every recognized key pressed in the same tick, including the close key. -/
def kAll : KeySnapshot := ⟨true, true, true, true, true, true⟩

/-- The state right after an `Activate` tick at time `T` driven by keyboard
`Enter` with no gamepad input: debounce memory cleared, animation target set
to the (unchanged) selection, animation clock set to `T`. -/
def afterActivate (s : HtpcApp) (T : ℚ) : HtpcApp :=
  { s with last_any_pressed := false, animation_start := some T,
           animation_idx := some s.selected }

/-! ### Helper lemmas about the embedded operations -/

theorem gamepad_actions_snd (s : HtpcApp) (raw : GamepadButtons) :
    (s.gamepad_actions raw).2 = { s with last_any_pressed := anyPressed raw } := by
  unfold HtpcApp.gamepad_actions
  dsimp only
  split <;> rfl

theorem gamepad_actions_suppressed (s : HtpcApp) (raw : GamepadButtons)
    (h : s.last_any_pressed = true) : (s.gamepad_actions raw).1 = gpNone := by
  unfold HtpcApp.gamepad_actions
  dsimp only
  rw [h]
  simp

theorem gamepad_actions_fresh (s : HtpcApp) (raw : GamepadButtons)
    (h : s.last_any_pressed = false) (ha : anyPressed raw = true) :
    (s.gamepad_actions raw).1 = raw := by
  unfold HtpcApp.gamepad_actions
  dsimp only
  rw [h, ha]
  simp

theorem render_expire_cases (s : HtpcApp) (now : ℚ) :
    s.render_expire now = s ∨
      s.render_expire now = { s with animation_idx := none, animation_start := none } := by
  unfold HtpcApp.render_expire
  rcases h1 : s.animation_idx with _ | idx
  · exact Or.inl rfl
  · rcases h2 : s.animation_start with _ | start
    · exact Or.inl rfl
    · dsimp only
      split
      · exact Or.inr rfl
      · exact Or.inl rfl

theorem render_expire_selected (s : HtpcApp) (now : ℚ) :
    (s.render_expire now).selected = s.selected := by
  rcases render_expire_cases s now with h | h <;> rw [h]

theorem render_expire_apps (s : HtpcApp) (now : ℚ) :
    (s.render_expire now).apps = s.apps := by
  rcases render_expire_cases s now with h | h <;> rw [h]

theorem render_expire_of_lt {s : HtpcApp} {idx : Nat} {start now : ℚ}
    (h1 : s.animation_idx = some idx) (h2 : s.animation_start = some start)
    (h : now - start < duration) : s.render_expire now = s := by
  unfold HtpcApp.render_expire
  rw [h1, h2]
  dsimp only
  rw [if_neg]
  rintro ⟨-, -, hle⟩
  linarith

theorem render_expire_clear {s : HtpcApp} {idx : Nat} {start now : ℚ}
    (h1 : s.animation_idx = some idx) (h2 : s.animation_start = some start)
    (hg : idx < GRID_ROWS * GRID_COLS) (hl : idx < s.apps.length)
    (h : duration ≤ now - start) :
    s.render_expire now = { s with animation_idx := none, animation_start := none } := by
  unfold HtpcApp.render_expire
  rw [h1, h2]
  dsimp only
  rw [if_pos ⟨hg, hl, h⟩]

theorem animation_progress_spec {s : HtpcApp} {idx : Nat} {start : ℚ} (now : ℚ)
    (h1 : s.animation_idx = some idx) (h2 : s.animation_start = some start)
    (hg : idx < GRID_ROWS * GRID_COLS) (hl : idx < s.apps.length) :
    s.animation_progress now =
      if now - start < duration then
        some (idx, clamp01 (1 - (now - start) / duration))
      else none := by
  unfold HtpcApp.animation_progress
  rw [h1, h2]
  dsimp only
  rw [if_pos ⟨hg, hl⟩]

/-- With no keys and no effective gamepad input, a focused tick only updates
the debounce memory and runs the expiry pass. -/
theorem update_kNone (s : HtpcApp) (now : ℚ) :
    s.update true kNone gpNone now =
      { state := HtpcApp.render_expire { s with last_any_pressed := false } now,
        launched := [], closed := false } := rfl

theorem update_kRight (s : HtpcApp) (now : ℚ) :
    s.update true kRight gpNone now =
      { state := HtpcApp.render_expire
          { s with last_any_pressed := false,
                   selected := step_right s.apps.length s.selected } now,
        launched := [], closed := false } := rfl

theorem update_kLeft (s : HtpcApp) (now : ℚ) :
    s.update true kLeft gpNone now =
      { state := HtpcApp.render_expire
          { s with last_any_pressed := false, selected := step_left s.selected } now,
        launched := [], closed := false } := rfl

theorem update_kDown (s : HtpcApp) (now : ℚ) :
    s.update true kDown gpNone now =
      { state := HtpcApp.render_expire
          { s with last_any_pressed := false,
                   selected := step_down s.apps.length s.selected } now,
        launched := [], closed := false } := rfl

theorem update_kUp (s : HtpcApp) (now : ℚ) :
    s.update true kUp gpNone now =
      { state := HtpcApp.render_expire
          { s with last_any_pressed := false, selected := step_up s.selected } now,
        launched := [], closed := false } := rfl

theorem update_kEnter (s : HtpcApp) (now : ℚ) :
    s.update true kEnter gpNone now =
      { state := HtpcApp.render_expire
          { s with last_any_pressed := false,
                   animation_start := some now, animation_idx := some s.selected } now,
        launched := if s.selected < s.apps.length then [s.selected] else [],
        closed := false } := rfl

theorem update_kRightEnter (s : HtpcApp) (now : ℚ) :
    s.update true kRightEnter gpNone now =
      { state := HtpcApp.render_expire
          { s with last_any_pressed := false,
                   selected := step_right s.apps.length s.selected,
                   animation_start := some now,
                   animation_idx := some (step_right s.apps.length s.selected) } now,
        launched := if step_right s.apps.length s.selected < s.apps.length
          then [step_right s.apps.length s.selected] else [],
        closed := false } := rfl

theorem update_unfocused (s : HtpcApp) (k : KeySnapshot) (gp : GamepadButtons) (now : ℚ) :
    s.update false k gp now =
      { state := s.render_expire now, launched := [], closed := false } := rfl

theorem step_right_lt {len sel : Nat} (h : sel < len) : step_right len sel < len := by
  unfold step_right; split <;> omega

theorem step_left_lt {len sel : Nat} (h : sel < len) : step_left sel < len := by
  unfold step_left; split <;> omega

theorem step_down_lt {len sel : Nat} (h : sel < len) : step_down len sel < len := by
  unfold step_down; split <;> omega

theorem step_up_lt {len sel : Nat} (h : sel < len) : step_up sel < len := by
  unfold step_up; split <;> omega

theorem moveStep_lt {len sel : Nat} (r l d u : Bool) (h : sel < len) :
    moveStep len sel r l d u < len := by
  have key : ∀ (b : Bool) (f : Nat → Nat) (x : Nat),
      x < len → (∀ y, y < len → f y < len) → (if b then f x else x) < len := by
    intro b f x hx hf
    cases b
    · exact hx
    · exact hf x hx
  unfold moveStep
  dsimp only
  exact key u _ _
    (key d _ _
      (key l _ _
        (key r _ _ h fun y hy => step_right_lt hy)
        fun y hy => step_left_lt hy)
      fun y hy => step_down_lt hy)
    fun y hy => step_up_lt hy

theorem update_state_apps (s : HtpcApp) (f : Bool) (k : KeySnapshot)
    (gp : GamepadButtons) (now : ℚ) :
    (s.update f k gp now).state.apps = s.apps := by
  cases f
  · exact render_expire_apps s now
  · unfold HtpcApp.update
    simp only [if_true]
    by_cases hc : k.key_c
    · simp only [hc, if_true, gamepad_actions_snd]
    · simp only [hc, Bool.false_eq_true, ite_false, gamepad_actions_snd]
      by_cases he : (k.key_enter || (s.gamepad_actions gp).1.activate)
      · simp only [he, if_true, render_expire_apps]
      · simp only [he, Bool.false_eq_true, ite_false, render_expire_apps]

theorem update_selected_lt (s : HtpcApp) (f : Bool) (k : KeySnapshot)
    (gp : GamepadButtons) (now : ℚ) (h : s.selected < s.apps.length) :
    (s.update f k gp now).state.selected < s.apps.length := by
  cases f
  · have hst : (s.update false k gp now).state = s.render_expire now := rfl
    rw [hst, render_expire_selected]
    exact h
  · unfold HtpcApp.update
    simp only [if_true]
    by_cases hc : k.key_c
    · simp only [hc, if_true, gamepad_actions_snd]
      exact h
    · simp only [hc, Bool.false_eq_true, ite_false, gamepad_actions_snd]
      by_cases he : (k.key_enter || (s.gamepad_actions gp).1.activate)
      · simp only [he, if_true, render_expire_selected]
        exact moveStep_lt _ _ _ _ h
      · simp only [he, Bool.false_eq_true, ite_false, render_expire_selected]
        exact moveStep_lt _ _ _ _ h

theorem runTicks_inv (inputs : List TickInput) (s : HtpcApp)
    (h : s.selected < s.apps.length) :
    (runTicks s inputs).selected < (runTicks s inputs).apps.length ∧
      (runTicks s inputs).apps = s.apps := by
  induction inputs generalizing s with
  | nil => exact ⟨h, rfl⟩
  | cons i rest ih =>
    have happ := update_state_apps s i.focused i.keys i.gp i.now
    have hsel := update_selected_lt s i.focused i.keys i.gp i.now h
    have hrec := ih ((s.update i.focused i.keys i.gp i.now).state) (by rw [happ]; exact hsel)
    refine ⟨hrec.1, ?_⟩
    rw [show runTicks s (i :: rest) =
      runTicks ((s.update i.focused i.keys i.gp i.now).state) rest from rfl]
    rw [hrec.2, happ]

theorem gamepadRun_suppressed (rest : List GamepadButtons) (s : HtpcApp)
    (h : s.last_any_pressed = true) (hall : ∀ x ∈ rest, anyPressed x = true) :
    gamepadRun s rest = rest.map fun _ => gpNone := by
  induction rest generalizing s with
  | nil => rfl
  | cons r rest ih =>
    have h1 : (s.gamepad_actions r).1 = gpNone := gamepad_actions_suppressed s r h
    have h2 : (s.gamepad_actions r).2.last_any_pressed = true := by
      rw [gamepad_actions_snd]
      exact hall r (List.mem_cons_self r rest)
    show (s.gamepad_actions r).1 :: gamepadRun (s.gamepad_actions r).2 rest = _
    rw [h1, ih _ h2 fun x hx => hall x (List.mem_cons_of_mem r hx)]
    rfl

theorem update_kEnter_state (s : HtpcApp) (T : ℚ) :
    (s.update true kEnter gpNone T).state = afterActivate s T := by
  rw [update_kEnter]
  dsimp only
  exact render_expire_of_lt rfl rfl (by rw [sub_self]; norm_num [duration])

theorem afterActivate_progress (s : HtpcApp) (T now : ℚ)
    (hg : s.selected < GRID_ROWS * GRID_COLS) (hsel : s.selected < s.apps.length) :
    (afterActivate s T).animation_progress now =
      if now - T < duration then
        some (s.selected, clamp01 (1 - (now - T) / duration))
      else none :=
  animation_progress_spec now rfl rfl hg hsel

theorem afterActivate_expire (s : HtpcApp) (T now : ℚ)
    (hg : s.selected < GRID_ROWS * GRID_COLS) (hsel : s.selected < s.apps.length)
    (h : duration ≤ now - T) :
    (afterActivate s T).render_expire now =
      { s with last_any_pressed := false, animation_idx := none,
               animation_start := none } :=
  render_expire_clear rfl rfl hg hsel h

theorem update_kEnter_suppressed (s : HtpcApp) (gp : GamepadButtons) (now : ℚ)
    (h : s.last_any_pressed = true) :
    (s.update true kEnter gp now).launched =
      if s.selected < s.apps.length then [s.selected] else [] := by
  unfold HtpcApp.update
  simp only [if_true]
  have hg := gamepad_actions_suppressed s gp h
  simp [hg, gamepad_actions_snd, kEnter, kNone, moveStep, gpNone, HtpcApp.launchList]

/-! ### Claims -/

/-- C1: for every non-empty entry list and every sequence of ticks with
arbitrary focus, keyboard and gamepad inputs, the selection index stays in
`[0, entry_count)` at all times after construction, so the selection always
indexes an existing entry and never lands on a trailing empty grid cell. -/
theorem C1_selection_invariant (apps : List AppEntry) (inputs : List TickInput)
    (hne : apps ≠ []) :
    (runTicks (HtpcApp.fromApps apps) inputs).selected < apps.length := by
  have h0 : (HtpcApp.fromApps apps).selected < (HtpcApp.fromApps apps).apps.length := by
    show 0 < apps.length
    exact List.length_pos.mpr hne
  have h := runTicks_inv inputs (HtpcApp.fromApps apps) h0
  have h1 := h.1
  rw [h.2] at h1
  exact h1

theorem C1_selection_invariant_witness :
    sampleApps ≠ [] ∧
      (runTicks (HtpcApp.fromApps sampleApps)
        [⟨true, kRight, gpNone, 0⟩, ⟨true, kDown, gpNone, 1⟩]).selected <
        sampleApps.length :=
  ⟨by decide, C1_selection_invariant sampleApps
    [⟨true, kRight, gpNone, 0⟩, ⟨true, kDown, gpNone, 1⟩] (by decide)⟩

/-- C2 (counterexample): with `ArrowRight` and `Enter` both pressed in the same
focused tick from selection 0 over the 5-entry sample config, the claimed
precedence `Activate > Right` would leave the selection unchanged at 0 and
launch entry 0; the code instead moves the selection to 1 and launches
entry 1 (the post-move selection). -/
theorem C2_precedence_counterexample :
    ((HtpcApp.fromApps sampleApps).update true kRightEnter gpNone 0).state.selected = 1 ∧
      ((HtpcApp.fromApps sampleApps).update true kRightEnter gpNone 0).launched = [1] := by
  constructor
  · rw [update_kRightEnter]
    dsimp only
    rw [render_expire_selected]
    decide
  · rw [update_kRightEnter]
    decide

/-- C2 (amended): in a focused tick there is no single-Intent precedence —
every effective action takes effect.  In particular, when `Activate` and
`Right` are both effective and the right move is valid, the selection advances
to `selected + 1` and the launch fires for the post-move selection, not the
pre-tick one. -/
theorem C2_no_precedence (s : HtpcApp) (now : ℚ)
    (h1 : s.selected + 1 < s.apps.length) (h2 : (s.selected + 1) % GRID_COLS ≠ 0) :
    (s.update true kRightEnter gpNone now).state.selected = s.selected + 1 ∧
      (s.update true kRightEnter gpNone now).launched = [s.selected + 1] := by
  have hsr : step_right s.apps.length s.selected = s.selected + 1 := if_pos ⟨h1, h2⟩
  constructor
  · rw [update_kRightEnter]
    dsimp only
    rw [render_expire_selected]
    exact hsr
  · rw [update_kRightEnter]
    dsimp only
    rw [hsr, if_pos h1]

theorem C2_no_precedence_witness :
    (HtpcApp.fromApps sampleApps).selected + 1 < (HtpcApp.fromApps sampleApps).apps.length ∧
      ((HtpcApp.fromApps sampleApps).selected + 1) % GRID_COLS ≠ 0 ∧
      (((HtpcApp.fromApps sampleApps).update true kRightEnter gpNone 0).state.selected = 0 + 1 ∧
        ((HtpcApp.fromApps sampleApps).update true kRightEnter gpNone 0).launched = [0 + 1]) :=
  ⟨by decide, by decide, C2_no_precedence (HtpcApp.fromApps sampleApps) 0 (by decide) (by decide)⟩

/-- C3: gamepad debounce — starting from a released state, a gamepad button
held across `N` consecutive ticks yields its raw booleans on exactly the
first tick and forces all five gamepad booleans to `false` on the remaining
`N - 1` ticks; and keyboard booleans are not subject to this debounce (a
keyboard `Enter` still launches on a tick whose gamepad input is suppressed
by `last_any_pressed = true`). -/
theorem C3_gamepad_debounce (s : HtpcApp) (r : GamepadButtons)
    (rest : List GamepadButtons) (hlast : s.last_any_pressed = false)
    (hr : anyPressed r = true) (hrest : ∀ x ∈ rest, anyPressed x = true)
    (s2 : HtpcApp) (gp2 : GamepadButtons) (now2 : ℚ)
    (h2last : s2.last_any_pressed = true) (h2sel : s2.selected < s2.apps.length) :
    gamepadRun s (r :: rest) = r :: (rest.map fun _ => gpNone) ∧
      (s2.update true kEnter gp2 now2).launched = [s2.selected] := by
  constructor
  · show (s.gamepad_actions r).1 :: gamepadRun (s.gamepad_actions r).2 rest = _
    rw [gamepad_actions_fresh s r hlast hr,
      gamepadRun_suppressed rest _ (by rw [gamepad_actions_snd]; exact hr) hrest]
  · rw [update_kEnter_suppressed s2 gp2 now2 h2last, if_pos h2sel]

theorem C3_gamepad_debounce_witness :
    (HtpcApp.fromApps sampleApps).last_any_pressed = false ∧
      anyPressed gpSouth = true ∧
      (∀ x ∈ [gpSouth, gpSouth], anyPressed x = true) ∧
      ({ sampleAt 2 with last_any_pressed := true } : HtpcApp).last_any_pressed = true ∧
      ({ sampleAt 2 with last_any_pressed := true } : HtpcApp).selected <
        ({ sampleAt 2 with last_any_pressed := true } : HtpcApp).apps.length ∧
      (gamepadRun (HtpcApp.fromApps sampleApps) [gpSouth, gpSouth, gpSouth] =
          [gpSouth, gpNone, gpNone] ∧
        (({ sampleAt 2 with last_any_pressed := true } : HtpcApp).update
          true kEnter gpSouth 0).launched = [2]) :=
  ⟨by decide, by decide, by decide, by decide, by decide,
    C3_gamepad_debounce (HtpcApp.fromApps sampleApps) gpSouth [gpSouth, gpSouth]
      (by decide) (by decide) (by decide)
      { sampleAt 2 with last_any_pressed := true } gpSouth 0 (by decide) (by decide)⟩

/-- C4 (counterexample): a core constructed from an empty entry list CAN be
obtained — `HtpcApp::new` performs no validation of the loaded list, so the
claimed `ConstructionError` on an empty list does not exist in the code. -/
theorem C4_construction_counterexample :
    HtpcApp.new (Except.ok ([] : List AppEntry)) =
      Except.ok (HtpcApp.fromApps []) := rfl

/-- C4 (amended): construction fails only when loading the config fails; it
performs no validation of the entry list, succeeding on every loaded list
including the empty one, and the grid area is the compile-time constant
`2 * 3 = 6`, never zero. -/
theorem C4_no_construction_validation (apps : List AppEntry) (e : String) :
    HtpcApp.new (Except.ok apps) = Except.ok (HtpcApp.fromApps apps) ∧
      HtpcApp.new (Except.error e) = Except.error e ∧
      GRID_ROWS * GRID_COLS = 6 :=
  ⟨rfl, rfl, rfl⟩

/-- C5: single-direction move semantics of a focused tick — right moves to
`selected + 1` iff `selected + 1 < entry_count` and `(selected + 1) % cols ≠ 0`;
left moves to `selected - 1` iff `selected % cols ≠ 0`; down moves to
`selected + cols` iff `selected + cols < entry_count`; up moves to
`selected - cols` iff `selected ≥ cols`; otherwise the selection is unchanged
(no wrapping, no clamping) — together with the 2×3-grid, 5-entry concrete
scenario step for step. -/
theorem C5_move_semantics (s : HtpcApp) (now : ℚ) :
    ((s.update true kRight gpNone now).state.selected =
        if s.selected + 1 < s.apps.length ∧ (s.selected + 1) % GRID_COLS ≠ 0
        then s.selected + 1 else s.selected) ∧
      ((s.update true kLeft gpNone now).state.selected =
        if s.selected % GRID_COLS ≠ 0 then s.selected - 1 else s.selected) ∧
      ((s.update true kDown gpNone now).state.selected =
        if s.selected + GRID_COLS < s.apps.length
        then s.selected + GRID_COLS else s.selected) ∧
      ((s.update true kUp gpNone now).state.selected =
        if GRID_COLS ≤ s.selected then s.selected - GRID_COLS else s.selected) ∧
      ((sampleAt 0).update true kRight gpNone 0).state.selected = 1 ∧
      ((sampleAt 1).update true kRight gpNone 0).state.selected = 2 ∧
      ((sampleAt 2).update true kRight gpNone 0).state.selected = 2 ∧
      ((sampleAt 2).update true kDown gpNone 0).state.selected = 2 ∧
      ((sampleAt 2).update true kUp gpNone 0).state.selected = 2 := by
  refine ⟨?_, ?_, ?_, ?_, by decide, by decide, by decide, by decide, by decide⟩
  · rw [update_kRight]
    dsimp only
    rw [render_expire_selected]
    rfl
  · rw [update_kLeft]
    dsimp only
    rw [render_expire_selected]
    rfl
  · rw [update_kDown]
    dsimp only
    rw [render_expire_selected]
    rfl
  · rw [update_kUp]
    dsimp only
    rw [render_expire_selected]
    rfl

/-- C6: animation lifecycle — immediately after an `Activate` at time `T` the
progress is `some (selected, 1)`; at elapsed `t` with `0 ≤ t <` 0.25 s it is
`some (selected, alpha)` with `alpha = 1 - t/0.25` clamped to `[0, 1]` (which
equals `1 - 4 t`); and once the elapsed time reaches 0.25 s the rendering pass
clears the target and clock (Idle) and the progress is `none`.  Stated over
the spec's data-model domain `entry_count ≤ rows * cols`, under which the
animated tile is always a drawn, occupied grid cell. -/
theorem C6_animation_lifecycle (s : HtpcApp) (T t1 t2 : ℚ)
    (hsel : s.selected < s.apps.length)
    (hlen : s.apps.length ≤ GRID_ROWS * GRID_COLS)
    (ht0 : 0 ≤ t1) (ht1 : t1 < duration) (ht2 : duration ≤ t2) :
    (s.update true kEnter gpNone T).state.animation_progress T =
        some (s.selected, 1) ∧
      (s.update true kEnter gpNone T).state.animation_progress (T + t1) =
        some (s.selected, clamp01 (1 - t1 / duration)) ∧
      clamp01 (1 - t1 / duration) = 1 - 4 * t1 ∧
      (s.update true kEnter gpNone T).state.animation_progress (T + t2) = none ∧
      ((s.update true kEnter gpNone T).state.render_expire (T + t2)).animation_idx
        = none ∧
      ((s.update true kEnter gpNone T).state.render_expire (T + t2)).animation_start
        = none := by
  have hdur : (0:ℚ) < duration := by norm_num [duration]
  have hg : s.selected < GRID_ROWS * GRID_COLS := lt_of_lt_of_le hsel hlen
  have ht1' : t1 < 1/4 := by rwa [duration] at ht1
  have hx0 : (0:ℚ) ≤ 1 - 4 * t1 := by linarith
  have hx1 : (1:ℚ) - 4 * t1 ≤ 1 := by linarith
  have hclamp : clamp01 (1 - t1 / duration) = 1 - 4 * t1 := by
    have harith : (1:ℚ) - t1 / duration = 1 - 4 * t1 := by
      rw [duration]; ring
    rw [clamp01, harith, max_eq_left hx0, min_eq_left hx1]
  have hc1 : clamp01 1 = 1 := by
    rw [clamp01, max_eq_left (by norm_num : (0:ℚ) ≤ 1)]
    exact min_self 1
  rw [update_kEnter_state]
  refine ⟨?_, ?_, hclamp, ?_, ?_, ?_⟩
  · rw [afterActivate_progress s T T hg hsel,
      if_pos (show T - T < duration by rw [sub_self]; exact hdur),
      sub_self, zero_div, sub_zero, hc1]
  · rw [afterActivate_progress s T (T + t1) hg hsel, add_sub_cancel_left,
      if_pos ht1]
  · rw [afterActivate_progress s T (T + t2) hg hsel, add_sub_cancel_left,
      if_neg (not_lt.mpr ht2)]
  · rw [afterActivate_expire s T (T + t2) hg hsel
      (by rw [add_sub_cancel_left]; exact ht2)]
  · rw [afterActivate_expire s T (T + t2) hg hsel
      (by rw [add_sub_cancel_left]; exact ht2)]

theorem C6_animation_lifecycle_witness :
    (sampleAt 2).selected < (sampleAt 2).apps.length ∧
      (sampleAt 2).apps.length ≤ GRID_ROWS * GRID_COLS ∧
      (0:ℚ) ≤ 1/8 ∧ (1/8 : ℚ) < duration ∧ duration ≤ (3/8 : ℚ) ∧
      (((sampleAt 2).update true kEnter gpNone 0).state.animation_progress 0 =
          some (2, 1) ∧
        ((sampleAt 2).update true kEnter gpNone 0).state.animation_progress (0 + 1/8) =
          some (2, clamp01 (1 - 1/8 / duration)) ∧
        clamp01 (1 - 1/8 / duration) = 1 - 4 * (1/8) ∧
        ((sampleAt 2).update true kEnter gpNone 0).state.animation_progress (0 + 3/8) =
          none ∧
        (((sampleAt 2).update true kEnter gpNone 0).state.render_expire (0 + 3/8)).animation_idx
          = none ∧
        (((sampleAt 2).update true kEnter gpNone 0).state.render_expire (0 + 3/8)).animation_start
          = none) :=
  ⟨by decide, by decide, by norm_num, by norm_num [duration], by norm_num [duration],
    C6_animation_lifecycle (sampleAt 2) 0 (1/8) (3/8) (by decide) (by decide)
      (by norm_num) (by norm_num [duration]) (by norm_num [duration])⟩

/-- C7: on any unfocused tick, for arbitrary keyboard and gamepad snapshots,
the selection does not change, no launch fires, and no close is requested. -/
theorem C7_unfocused_inert (s : HtpcApp) (k : KeySnapshot) (gp : GamepadButtons)
    (now : ℚ) :
    (s.update false k gp now).state.selected = s.selected ∧
      (s.update false k gp now).launched = [] ∧
      (s.update false k gp now).closed = false := by
  refine ⟨?_, rfl, rfl⟩
  show (s.render_expire now).selected = s.selected
  exact render_expire_selected s now

/-- C8: each `Activate` fires the launch exactly once for the currently
selected entry and overwrites the animation target and clock; a second
`Activate` 50 ms later (before the 0.25 s expiry) fires the launch again and
resets the animation clock — no deduplication or cooldown. -/
theorem C8_activate_relaunch (s : HtpcApp) (now : ℚ)
    (hsel : s.selected < s.apps.length) :
    ((s.update true kEnter gpNone now).launched = [s.selected] ∧
      (s.update true kEnter gpNone now).state.animation_idx = some s.selected ∧
      (s.update true kEnter gpNone now).state.animation_start = some now) ∧
      (((s.update true kEnter gpNone now).state.update true kEnter gpNone
          (now + 1/20)).launched = [s.selected] ∧
        ((s.update true kEnter gpNone now).state.update true kEnter gpNone
          (now + 1/20)).state.animation_idx = some s.selected ∧
        ((s.update true kEnter gpNone now).state.update true kEnter gpNone
          (now + 1/20)).state.animation_start = some (now + 1/20)) := by
  refine ⟨⟨?_, ?_, ?_⟩, ?_, ?_, ?_⟩
  · rw [update_kEnter]
    show (if s.selected < s.apps.length then [s.selected] else []) = [s.selected]
    rw [if_pos hsel]
  · rw [update_kEnter_state]
    rfl
  · rw [update_kEnter_state]
    rfl
  · rw [update_kEnter_state, update_kEnter]
    show (if s.selected < s.apps.length then [s.selected] else []) = [s.selected]
    rw [if_pos hsel]
  · rw [update_kEnter_state, update_kEnter_state]
    rfl
  · rw [update_kEnter_state, update_kEnter_state]
    rfl

theorem C8_activate_relaunch_witness :
    (sampleAt 2).selected < (sampleAt 2).apps.length ∧
      ((((sampleAt 2).update true kEnter gpNone 0).launched = [2] ∧
        ((sampleAt 2).update true kEnter gpNone 0).state.animation_idx = some 2 ∧
        ((sampleAt 2).update true kEnter gpNone 0).state.animation_start = some 0) ∧
        ((((sampleAt 2).update true kEnter gpNone 0).state.update true kEnter gpNone
            (0 + 1/20)).launched = [2] ∧
          (((sampleAt 2).update true kEnter gpNone 0).state.update true kEnter gpNone
            (0 + 1/20)).state.animation_idx = some 2 ∧
          (((sampleAt 2).update true kEnter gpNone 0).state.update true kEnter gpNone
            (0 + 1/20)).state.animation_start = some (0 + 1/20))) :=
  ⟨by decide, C8_activate_relaunch (sampleAt 2) 0 (by decide)⟩

/-- C9: from any position that is neither at a right edge nor the last entry
(`selected + 1 < entry_count` and `(selected + 1) % cols ≠ 0`), a right move
followed by a left move returns the selection to the original index. -/
theorem C9_right_then_left (s : HtpcApp) (n1 n2 : ℚ)
    (h1 : s.selected + 1 < s.apps.length)
    (h2 : (s.selected + 1) % GRID_COLS ≠ 0) :
    ((s.update true kRight gpNone n1).state.update true kLeft gpNone n2).state.selected
      = s.selected := by
  have hsel1 : (s.update true kRight gpNone n1).state.selected = s.selected + 1 := by
    rw [update_kRight]
    dsimp only
    rw [render_expire_selected]
    show step_right s.apps.length s.selected = s.selected + 1
    exact if_pos ⟨h1, h2⟩
  rw [update_kLeft]
  dsimp only
  rw [render_expire_selected]
  show step_left (s.update true kRight gpNone n1).state.selected = s.selected
  rw [hsel1]
  unfold step_left
  rw [if_pos h2]
  omega

theorem C9_right_then_left_witness :
    (HtpcApp.fromApps sampleApps).selected + 1 < (HtpcApp.fromApps sampleApps).apps.length ∧
      ((HtpcApp.fromApps sampleApps).selected + 1) % GRID_COLS ≠ 0 ∧
      (((HtpcApp.fromApps sampleApps).update true kRight gpNone 0).state.update
        true kLeft gpNone 0).state.selected = 0 :=
  ⟨by decide, by decide,
    C9_right_then_left (HtpcApp.fromApps sampleApps) 0 0 (by decide) (by decide)⟩

/-- C10: on a focused tick with the close key `C` pressed, the tick is aborted
right after requesting close — the close flag is set and no selection move, no
launch, and no animation-state change happen, even when every other key and
gamepad button is effective in the same tick. -/
theorem C10_close_aborts_tick (s : HtpcApp) (k : KeySnapshot) (gp : GamepadButtons)
    (now : ℚ) (hc : k.key_c = true) :
    (s.update true k gp now).closed = true ∧
      (s.update true k gp now).state.selected = s.selected ∧
      (s.update true k gp now).launched = [] ∧
      (s.update true k gp now).state.animation_idx = s.animation_idx ∧
      (s.update true k gp now).state.animation_start = s.animation_start := by
  have h : s.update true k gp now =
      { state := { s with last_any_pressed := anyPressed gp },
        launched := [], closed := true } := by
    unfold HtpcApp.update
    simp only [if_true, hc, ite_true, gamepad_actions_snd]
  rw [h]
  exact ⟨rfl, rfl, rfl, rfl, rfl⟩

theorem C10_close_aborts_tick_witness :
    kAll.key_c = true ∧
      (((sampleAt 1).update true kAll gpSouth 0).closed = true ∧
        ((sampleAt 1).update true kAll gpSouth 0).state.selected = 1 ∧
        ((sampleAt 1).update true kAll gpSouth 0).launched = [] ∧
        ((sampleAt 1).update true kAll gpSouth 0).state.animation_idx = none ∧
        ((sampleAt 1).update true kAll gpSouth 0).state.animation_start = none) :=
  ⟨by decide, C10_close_aborts_tick (sampleAt 1) kAll gpSouth 0 (by decide)⟩
